import Mathlib

/-!
# DDS140 oscilloscope driver: register codec, control primitives, acquisition handshake

A shallow embedding of `src/hardware/dds140/protocol.c` and `protocol.h`.

* Machine integers are naturals / integers; a value that passes through a
  narrower C parameter is reduced with an explicit `%`.
* The USB stack and the allocator are the environment.  A blocking control
  transfer takes its result from a stream of results; the library calls made
  while one asynchronous request is issued take theirs from an `Outcome`.
* Out-of-bounds array reads and null dereferences are `none`.
-/

namespace DDS140

/-! ## Constants of `protocol.h` -/

/-- Modelled from the spec: the `SR_KHZ` macro lives in `libsigrok.h`, which is
not among the sources; the spec gives the rates in kHz, one kHz being 1000 Hz. -/
def SR_KHZ (n : Nat) : Nat := n * 1000

/-- Modelled from the spec: the `SR_MHZ` macro lives in `libsigrok.h`, which is
not among the sources; the spec gives the rates in MHz, one MHz being
1000000 Hz. -/
def SR_MHZ (n : Nat) : Nat := n * 1000000

/-- Modelled from the spec: `SR_OK` is declared in `libsigrok.h`; the spec and
the claims write it `Ok (0)`. -/
def SR_OK : Int := 0

def NUM_CHANNELS : Nat := 2

def SAMPLERATE_VALUES : List Nat :=
  [SR_MHZ 100, SR_MHZ 80, SR_MHZ 10, SR_KHZ 625, SR_KHZ 39]

def SAMPLERATE_REGS : List Nat := [0x10, 0x11, 0x1c, 0x18, 0x1b]

def VDIV_CH1_REG_VAL : List Nat := [0x08, 0x04, 0x00, 0x06, 0x02]

def VDIV_CH2_REG_VAL : List Nat := [0x20, 0x10, 0x00, 0x12, 0x02]

def NUM_VDIVS : Nat := 5

def DDS140_EP_IN : Nat := 0x82

/-- The `enum control_requests` members that are used. -/
def VDIV_CH1_REG : Nat := 0x22

def VDIV_CH2_REG : Nat := 0x23

/-- Modelled from the spec: the `ARRAY_SIZE` macro lives in
`libsigrok-internal.h`, which is not among the sources.  It is the element count
`sizeof(a) / sizeof((a)[0])` of the outermost dimension of the array `a`; the
spec's "last table entry" of the sample-rate table is the entry at
`ARRAY_SIZE - 1`. -/
def ARRAY_SIZE {α : Type} (a : List α) : Nat := a.length

/-! ## Register codec -/

/-- The `for` loop of `samplerate_to_reg`: `n` iterations remain and the loop
variable is `i`.  `some reg` is the `return` from inside the loop, `none` is
the loop running to its end. -/
def samplerate_to_reg_loop (samplerate : Nat) : Nat → Nat → Option Nat
  | 0, _ => none
  | n + 1, i =>
    if SAMPLERATE_VALUES.getD i 0 = samplerate then
      some (SAMPLERATE_REGS.getD i 0)
    else
      samplerate_to_reg_loop samplerate n (i + 1)

/-- Embeds `static uint8_t samplerate_to_reg(uint64_t samplerate)`. -/
def samplerate_to_reg (samplerate : Nat) : Nat :=
  match samplerate_to_reg_loop samplerate (ARRAY_SIZE SAMPLERATE_VALUES) 0 with
  | some reg => reg
  | none => SAMPLERATE_REGS.getD (ARRAY_SIZE SAMPLERATE_VALUES - 1) 0

/-- The local table `vdiv_reg[NUM_CHANNELS][NUM_VDIVS]` of `voltage_to_reg`. -/
def vdiv_reg : List (List Nat) := [VDIV_CH1_REG_VAL, VDIV_CH2_REG_VAL]

/-- Embeds `static uint8_t voltage_to_reg(uint8_t channel, uint8_t state)`.
`ARRAY_SIZE(vdiv_reg[channel])` is the length of a row (`NUM_VDIVS`, whatever
`channel` is) and `ARRAY_SIZE(vdiv_reg)` is the number of rows.  A read outside
the table is `none`. -/
def voltage_to_reg (channel state : Nat) : Option Nat :=
  if state < NUM_VDIVS then
    (vdiv_reg.get? channel).bind (fun row => row.get? state)
  else
    (vdiv_reg.get? channel).bind (fun row => row.get? (ARRAY_SIZE vdiv_reg - 1))

/-! ## Synchronous command primitive -/

/-- The libusb constant `LIBUSB_REQUEST_TYPE_VENDOR` (`0x02 << 5`). -/
def LIBUSB_REQUEST_TYPE_VENDOR : Nat := 0x40

/-- The arguments of one call of the blocking `libusb_control_transfer`. -/
structure ControlCall where
  bmRequestType : Nat
  bRequest : Nat
  wValue : Nat
  wIndex : Nat
  wLength : Nat
  timeout : Nat
deriving DecidableEq, Repr

/-- The open device as the blocking primitives see it: `results n` is what the
`n`-th call of `libusb_control_transfer` returns (a negative libusb error code or
the number of bytes transferred), `calls` logs the calls made so far and
`errors` counts the `sr_err` messages. -/
structure Usb where
  results : Nat → Int
  calls : List ControlCall
  errors : Nat

/-- The blocking `libusb_control_transfer` of the USB stack: the call is
logged and the next result of the stream is returned. -/
def libusb_control_transfer (u : Usb)
    (bmRequestType bRequest wValue wIndex wLength timeout : Nat) : Int × Usb :=
  (u.results u.calls.length,
   { u with calls := u.calls ++
       [{ bmRequestType := bmRequestType, bRequest := bRequest, wValue := wValue,
          wIndex := wIndex, wLength := wLength, timeout := timeout }] })

/-- Embeds `static int read_control(sdi, reg, data, len)`; the bytes stored in `data`
are not tracked.  `reg` goes through the cast `(uint8_t)reg`, `len` is a
`uint16_t` parameter. -/
def read_control (u : Usb) (reg len : Nat) : Int × Usb :=
  let r := libusb_control_transfer u (0x80 ||| LIBUSB_REQUEST_TYPE_VENDOR) (reg % 256)
    0 0 (len % 65536) 100
  if r.1 ≤ 0 then
    (r.1, { r.2 with errors := r.2.errors + 1 })
  else
    (0, r.2)

/-- Embeds `static int write_control(sdi, reg, value)`.  `reg` goes through the cast
`(uint8_t)reg`, `value` is a `uint16_t` parameter. -/
def write_control (u : Usb) (reg value : Nat) : Int × Usb :=
  let r := libusb_control_transfer u LIBUSB_REQUEST_TYPE_VENDOR (reg % 256)
    (value % 65536) 0 1 0
  if r.1 ≤ 0 then
    (r.1, { r.2 with errors := r.2.errors + 1 })
  else
    (0, r.2)

/-! ## Configuration setters -/

/-- The fields of `struct dev_context` that the setters read: `samplerate` is a
`uint64_t`, `voltage` is `int voltage[NUM_CHANNELS]`. -/
structure dev_context where
  samplerate : Nat
  voltage : Nat → Int

/-- Conversion of an `int` argument to a `uint8_t` parameter. -/
def to_uint8 (v : Int) : Nat := (v % 256).toNat

/-- The `MIN(a, b)` macro of glib, `(((a) < (b)) ? (a) : (b))`. -/
def MIN (a b : Int) : Int := if a < b then a else b

/-- Embeds `SR_PRIV int dds140_update_samplerate(sdi)`. -/
def dds140_update_samplerate (u : Usb) (devc : dev_context) : Int × Usb :=
  let r1 := write_control u 0x24 0x18
  write_control r1.2 0x94 (samplerate_to_reg devc.samplerate)

/-- Embeds `SR_PRIV int dds140_update_vdiv(sdi)`. -/
def dds140_update_vdiv (u : Usb) (devc : dev_context) : Option (Int × Usb) :=
  (voltage_to_reg 0 (to_uint8 (devc.voltage 0))).bind fun v0 =>
  (voltage_to_reg 1 (to_uint8 (devc.voltage 1))).bind fun v1 =>
    let r1 := write_control u VDIV_CH1_REG v0
    let r2 := write_control r1.2 VDIV_CH2_REG v1
    some (MIN r1.1 r2.1, r2.2)

/-! ## Asynchronous transfers -/

/-- The values a `libusb_transfer_cb_fn` takes here: the two static callbacks
of `protocol.c`, or a function `fn` supplied by the caller of
`dds140_get_channeldata`. -/
inductive Callback where
  | write_0x33_cb
  | wait_for_fifo_cb
  | user (fn : Nat)
deriving DecidableEq, Repr

/-- The transfer types `LIBUSB_TRANSFER_TYPE_CONTROL` and `LIBUSB_TRANSFER_TYPE_BULK`. -/
inductive TransferType where
  | control
  | bulk
deriving DecidableEq, Repr

/-- The setup packet `struct libusb_control_setup` at the head of the buffer of
a control transfer. -/
structure libusb_control_setup where
  bmRequestType : Nat
  bRequest : Nat
  wValue : Nat
  wIndex : Nat
  wLength : Nat
deriving DecidableEq, Repr

/-- The fields of `struct libusb_transfer` that the driver fills.  `length` is
an `int`; `buffer` is the size in bytes of the allocated block that the
`buffer` pointer refers to; `user_data` is the session `sdi`; `setup` is the
setup packet stored in the buffer of a control transfer. -/
structure libusb_transfer where
  endpoint : Nat
  type : TransferType
  timeout : Nat
  length : Int
  buffer : Nat
  callback : Option Callback
  user_data : Nat
  setup : Option libusb_control_setup
deriving DecidableEq, Repr

/-- Conversion of a `uint32_t` argument to an `int` parameter: the value is
reduced modulo 2^32 into the range of `int`, so a value from 2^31 on becomes
negative. -/
def uint32_to_int (n : Nat) : Int :=
  if n % 2 ^ 32 < 2 ^ 31 then ((n % 2 ^ 32 : Nat) : Int)
  else ((n % 2 ^ 32 : Nat) : Int) - 2 ^ 32

/-- The libusb constant `LIBUSB_CONTROL_SETUP_SIZE`. -/
def LIBUSB_CONTROL_SETUP_SIZE : Nat := 8

/-- The inline `libusb_fill_control_setup` of libusb; its parameters are two
`uint8_t` and three `uint16_t`. -/
def libusb_fill_control_setup (bmRequestType bRequest wValue wIndex wLength : Nat) :
    libusb_control_setup :=
  { bmRequestType := bmRequestType % 256, bRequest := bRequest % 256,
    wValue := wValue % 65536, wIndex := wIndex % 65536, wLength := wLength % 65536 }

/-- The inline `libusb_fill_control_transfer` of libusb: endpoint 0, and the
length is the setup packet plus its `wLength`.  `buffer` is the size of the
block that holds the setup packet and the data. -/
def libusb_fill_control_transfer (user_data buffer : Nat) (setup : libusb_control_setup)
    (callback : Option Callback) (timeout : Nat) : libusb_transfer :=
  { endpoint := 0, type := TransferType.control, timeout := timeout,
    length := ((LIBUSB_CONTROL_SETUP_SIZE + setup.wLength : Nat) : Int),
    buffer := buffer, callback := callback, user_data := user_data,
    setup := some setup }

/-- The inline `libusb_fill_bulk_transfer` of libusb.  `endpoint` is an
`unsigned char` parameter; `length` is an `int` parameter and receives a
`uint32_t` argument; `buffer` is the size of the block passed as buffer. -/
def libusb_fill_bulk_transfer (user_data endpoint buffer length : Nat)
    (callback : Option Callback) (timeout : Nat) : libusb_transfer :=
  { endpoint := endpoint % 256, type := TransferType.bulk, timeout := timeout,
    length := uint32_to_int length, buffer := buffer, callback := callback,
    user_data := user_data, setup := none }

/-- The state the asynchronous code works on: the two globals `s_cb` and
`s_data_amount` of `protocol.c`, and the environment's books.  `submitted`
lists every transfer handed to `libusb_submit_transfer`, in order;
`in_flight` holds the submitted transfers that have not completed yet; the
four counters count buffers and transfer records allocated and released by
`protocol.c`; `handler_calls` lists the invocations of caller-supplied
callbacks with the transfer they received; `errors` counts `sr_err` messages. -/
structure World where
  s_cb : Option Callback
  s_data_amount : Nat
  submitted : List libusb_transfer
  in_flight : List libusb_transfer
  bufs_allocated : Nat
  bufs_freed : Nat
  transfers_allocated : Nat
  transfers_freed : Nat
  handler_calls : List (Nat × libusb_transfer)
  errors : Nat
deriving DecidableEq, Repr

/-- The state at program start: zero-initialised globals, nothing issued. -/
def World.idle : World :=
  { s_cb := none, s_data_amount := 0, submitted := [], in_flight := [],
    bufs_allocated := 0, bufs_freed := 0, transfers_allocated := 0,
    transfers_freed := 0, handler_calls := [], errors := 0 }

/-- What the library calls made while one request is issued return:
whether `malloc` / `g_try_malloc` gives a buffer, whether
`libusb_alloc_transfer` gives a record, and the value of
`libusb_submit_transfer` (0 on success, a negative libusb error code on
failure). -/
structure Outcome where
  malloc_ok : Bool
  alloc_transfer_ok : Bool
  submit_ret : Int
deriving DecidableEq, Repr

/-- Every allocation and the submission succeed. -/
def Outcome.ok : Outcome := { malloc_ok := true, alloc_transfer_ok := true, submit_ret := 0 }

/-- The call `libusb_submit_transfer` of the USB stack: the attempt is logged, and the
transfer is in flight unless the call fails. -/
def libusb_submit_transfer (o : Outcome) (w : World) (transfer : libusb_transfer) :
    Int × World :=
  (o.submit_ret,
   { w with submitted := w.submitted ++ [transfer],
            in_flight := if o.submit_ret < 0 then w.in_flight
                         else w.in_flight ++ [transfer] })

/-- Embeds `static int write_control_async(sdi, cb, reg, value)`; the buffer
is `malloc(LIBUSB_CONTROL_SETUP_SIZE + 1)`. -/
def write_control_async (o : Outcome) (w : World) (sdi : Nat) (cb : Callback)
    (reg value : Nat) : Int × World :=
  if !o.malloc_ok then
    (-1, w)
  else
    let w1 := { w with bufs_allocated := w.bufs_allocated + 1 }
    if !o.alloc_transfer_ok then
      (-1, { w1 with bufs_freed := w1.bufs_freed + 1 })
    else
      let w2 := { w1 with transfers_allocated := w1.transfers_allocated + 1 }
      let buf := libusb_fill_control_setup 0 reg value 0 1
      let transfer := libusb_fill_control_transfer sdi (LIBUSB_CONTROL_SETUP_SIZE + 1) buf
        (some cb) 1000
      (0, (libusb_submit_transfer o w2 transfer).2)

/-- Embeds `static int read_control_async(sdi, cb, reg, len)`; `len` is a
`uint16_t` parameter and the buffer is `malloc(LIBUSB_CONTROL_SETUP_SIZE + len)`. -/
def read_control_async (o : Outcome) (w : World) (sdi : Nat) (cb : Callback)
    (reg len : Nat) : Int × World :=
  if !o.malloc_ok then
    (-1, w)
  else
    let w1 := { w with bufs_allocated := w.bufs_allocated + 1 }
    if !o.alloc_transfer_ok then
      (-1, { w1 with bufs_freed := w1.bufs_freed + 1 })
    else
      let w2 := { w1 with transfers_allocated := w1.transfers_allocated + 1 }
      let buf := libusb_fill_control_setup 0x80 reg 0 0 len
      let transfer := libusb_fill_control_transfer sdi
        (LIBUSB_CONTROL_SETUP_SIZE + len % 65536) buf (some cb) 1000
      (0, (libusb_submit_transfer o w2 transfer).2)

/-! ## Acquisition state machine -/

/-- Embeds `static void start_data_transfer(sdi)`.  The buffer is
`g_try_malloc(s_data_amount)` and `s_data_amount` is also the length argument
of `libusb_fill_bulk_transfer`.  The record returned by
`libusb_alloc_transfer` is not checked, so a null record is dereferenced by
`libusb_fill_bulk_transfer`: `none`. -/
def start_data_transfer (o : Outcome) (w : World) (sdi : Nat) : Option World :=
  if !o.malloc_ok then
    some { w with errors := w.errors + 1 }
  else
    let w1 := { w with bufs_allocated := w.bufs_allocated + 1 }
    if !o.alloc_transfer_ok then
      none
    else
      let w2 := { w1 with transfers_allocated := w1.transfers_allocated + 1 }
      let transfer := libusb_fill_bulk_transfer sdi DDS140_EP_IN w.s_data_amount
        w.s_data_amount w.s_cb 4000
      let r := libusb_submit_transfer o w2 transfer
      if r.1 < 0 then
        some { r.2 with errors := r.2.errors + 1,
                        transfers_freed := r.2.transfers_freed + 1,
                        bufs_freed := r.2.bufs_freed + 1 }
      else
        some r.2

/-- Embeds `static void start_wait_for_fifo(sdi)`. -/
def start_wait_for_fifo (o : Outcome) (w : World) (sdi : Nat) : World :=
  (read_control_async o w sdi Callback.wait_for_fifo_cb 0x50 1).2

/-- Embeds `static void wait_for_fifo_cb(trans)`; `data` is the first data byte of
the completed transfer, `libusb_control_transfer_get_data(trans)[0]`.  As a
`char` it equals `0x21` exactly when the byte does, whether `char` is signed
or not. -/
def wait_for_fifo_cb (o : Outcome) (w : World) (trans : libusb_transfer) (data : Nat) :
    Option World :=
  let w1 := { w with bufs_freed := w.bufs_freed + 1,
                     transfers_freed := w.transfers_freed + 1 }
  if 0x21 = data then
    start_data_transfer o w1 trans.user_data
  else
    some (start_wait_for_fifo o w1 trans.user_data)

/-- Embeds `static void write_0x33_cb(trans)`. -/
def write_0x33_cb (o : Outcome) (w : World) (trans : libusb_transfer) : World :=
  let w1 := { w with bufs_freed := w.bufs_freed + 1,
                     transfers_freed := w.transfers_freed + 1 }
  start_wait_for_fifo o w1 trans.user_data

/-- Embeds `SR_PRIV int dds140_get_channeldata(sdi, cb, data_amount)`; `data_amount`
is a `uint32_t` parameter. -/
def dds140_get_channeldata (o : Outcome) (w : World) (sdi : Nat) (cb : Callback)
    (data_amount : Nat) : Int × World :=
  let w1 := { w with s_cb := some cb, s_data_amount := data_amount % 2 ^ 32 }
  let r := write_control_async o w1 sdi Callback.write_0x33_cb 0x33 0
  (SR_OK, r.2)

/-- The call `transfer->callback(transfer)` made by the event loop of the USB
stack.  A caller-supplied callback is outside `protocol.c`: its invocation is
recorded. -/
def invoke_callback (o : Outcome) (w : World) (trans : libusb_transfer) (data : Nat) :
    Callback → Option World
  | Callback.write_0x33_cb => some (write_0x33_cb o w trans)
  | Callback.wait_for_fifo_cb => wait_for_fifo_cb o w trans data
  | Callback.user fn => some { w with handler_calls := w.handler_calls ++ [(fn, trans)] }

/-- The event loop completes the `i`-th transfer in flight, whose buffer then
starts with the data byte `data`: the transfer leaves the stack and its
callback runs.  `none` when there is no such transfer. -/
def transfer_completes (o : Outcome) (w : World) (i data : Nat) : Option World :=
  match w.in_flight[i]? with
  | none => none
  | some transfer =>
    let w1 := { w with in_flight := w.in_flight.eraseIdx i }
    match transfer.callback with
    | none => some w1
    | some cb => invoke_callback o w1 transfer data cb

/-- Successive completions, each of the oldest transfer in flight, with the
given data bytes; every library call succeeds. -/
def run_completions (w : World) : List Nat → Option World
  | [] => some w
  | data :: rest =>
    (transfer_completes Outcome.ok w 0 data).bind fun w1 => run_completions w1 rest

/-- The number of transfers of session `sdi` that are in flight. -/
def outstanding (w : World) (sdi : Nat) : Nat :=
  w.in_flight.countP (fun t => t.user_data == sdi)

/-- The states reachable from the idle state when `dds140_get_channeldata` may
be called at any time and transfers in flight complete, every library call
succeeding. -/
inductive Reachable : World → Prop
  | idle : Reachable World.idle
  | call {w : World} (sdi : Nat) (cb : Callback) (data_amount : Nat) :
      Reachable w →
      Reachable (dds140_get_channeldata Outcome.ok w sdi cb data_amount).2
  | completion {w w1 : World} (i data : Nat) :
      Reachable w → transfer_completes Outcome.ok w i data = some w1 → Reachable w1

/-- The states reachable from the idle state when `dds140_get_channeldata` is
called on a session only while no transfer of that session is in flight. -/
inductive ReachableWaiting : World → Prop
  | idle : ReachableWaiting World.idle
  | call {w : World} (sdi : Nat) (cb : Callback) (data_amount : Nat) :
      ReachableWaiting w → outstanding w sdi = 0 →
      ReachableWaiting (dds140_get_channeldata Outcome.ok w sdi cb data_amount).2
  | completion {w w1 : World} (i data : Nat) :
      ReachableWaiting w → transfer_completes Outcome.ok w i data = some w1 →
      ReachableWaiting w1

/-! ## The requests of one acquisition, as the specification names them -/

/-- The asynchronous start command: the control transfer that
`write_control_async(sdi, write_0x33_cb, 0x33, 0)` fills. -/
def start_command (sdi : Nat) : libusb_transfer :=
  { endpoint := 0, type := TransferType.control, timeout := 1000, length := 9,
    buffer := 9, callback := some Callback.write_0x33_cb, user_data := sdi,
    setup := some { bmRequestType := 0x00, bRequest := 0x33, wValue := 0,
                    wIndex := 0, wLength := 1 } }

/-- The FIFO-status poll: the control transfer that
`read_control_async(sdi, wait_for_fifo_cb, 0x50, 1)` fills. -/
def status_poll (sdi : Nat) : libusb_transfer :=
  { endpoint := 0, type := TransferType.control, timeout := 1000, length := 9,
    buffer := 9, callback := some Callback.wait_for_fifo_cb, user_data := sdi,
    setup := some { bmRequestType := 0x80, bRequest := 0x50, wValue := 0,
                    wIndex := 0, wLength := 1 } }

/-- The bulk read of `amount` bytes on endpoint `0x82` with deadline 4000 whose
completion callback is `cb`: its length is `amount` and its buffer holds
`amount` bytes. -/
def bulk_read (sdi amount : Nat) (cb : Option Callback) : libusb_transfer :=
  { endpoint := 0x82, type := TransferType.bulk, timeout := 4000,
    length := (amount : Int), buffer := amount, callback := cb, user_data := sdi,
    setup := none }

/-- The bulk transfer that `start_data_transfer` fills from the globals
`s_data_amount` and `s_cb`: the buffer holds `s_data_amount` bytes and the
length is `s_data_amount` converted to `int`. -/
def bulk_request (sdi s_data_amount : Nat) (cb : Option Callback) : libusb_transfer :=
  { endpoint := 0x82, type := TransferType.bulk, timeout := 4000,
    length := uint32_to_int s_data_amount, buffer := s_data_amount, callback := cb,
    user_data := sdi, setup := none }

/-- The state of an acquisition of `amount` bytes for the handler `fn` on
session `sdi`, started from the idle state, while its first status poll is in
flight. -/
def World.polling (sdi fn amount : Nat) : World :=
  { s_cb := some (Callback.user fn), s_data_amount := amount,
    submitted := [start_command sdi, status_poll sdi], in_flight := [status_poll sdi],
    bufs_allocated := 2, bufs_freed := 1, transfers_allocated := 2, transfers_freed := 1,
    handler_calls := [], errors := 0 }

/-! ## Register codec: theorems -/

/-- C1: `samplerate_to_reg` returns 0x10, 0x11, 0x1c, 0x18, 0x1b at 100 MHz,
80 MHz, 10 MHz, 625 kHz, 39 kHz, and 0x1b, the last table entry, at every other
rate. -/
theorem samplerate_to_reg_table (r : Nat) :
    samplerate_to_reg r =
      if r = 100000000 then 0x10
      else if r = 80000000 then 0x11
      else if r = 10000000 then 0x1c
      else if r = 625000 then 0x18
      else if r = 39000 then 0x1b
      else 0x1b := by
  simp only [samplerate_to_reg, samplerate_to_reg_loop, ARRAY_SIZE, SAMPLERATE_VALUES,
    SAMPLERATE_REGS, SR_MHZ, SR_KHZ, List.length_cons, List.length_nil, List.getD_cons_zero,
    List.getD_cons_succ]
  norm_num
  split_ifs <;> first | rfl | omega

/-- C2: for a range index below 5, `voltage_to_reg` returns the entry at that
index of 0x08, 0x04, 0x00, 0x06, 0x02 for channel 0 and of 0x20, 0x10, 0x00,
0x12, 0x02 for channel 1. -/
theorem voltage_to_reg_in_range (i : Nat) (h : i < 5) :
    voltage_to_reg 0 i = some ([0x08, 0x04, 0x00, 0x06, 0x02].getD i 0) ∧
    voltage_to_reg 1 i = some ([0x20, 0x10, 0x00, 0x12, 0x02].getD i 0) := by
  interval_cases i <;> exact ⟨rfl, rfl⟩

theorem voltage_to_reg_in_range_witness :
    3 < 5 ∧ voltage_to_reg 0 3 = some 0x06 ∧ voltage_to_reg 1 3 = some 0x12 :=
  ⟨by decide, voltage_to_reg_in_range 3 (by decide)⟩

/-- C3: at every range index from 5 on, `voltage_to_reg` returns the entry at
index 1 of the channel's table (0x04 for channel 0, 0x10 for channel 1), not the
last entry, which is 0x02 at index 4 in both tables. -/
theorem voltage_to_reg_out_of_range (i : Nat) :
    voltage_to_reg 0 (5 + i) = some 0x04 ∧ voltage_to_reg 1 (5 + i) = some 0x10 ∧
    VDIV_CH1_REG_VAL.get? 4 = some 0x02 ∧ VDIV_CH2_REG_VAL.get? 4 = some 0x02 := by
  have h : ¬ (5 + i < NUM_VDIVS) := by simp [NUM_VDIVS]
  refine ⟨?_, ?_, rfl, rfl⟩
  · unfold voltage_to_reg
    rw [if_neg h]
    rfl
  · unfold voltage_to_reg
    rw [if_neg h]
    rfl

/-! ## Synchronous primitives and setters: theorems -/

/-- The value `write_control` returns, from the result `r` of the blocking
transfer: `r` itself when `r ≤ 0`, and 0 otherwise. -/
theorem write_control_ret (u : Usb) (reg value : Nat) :
    (write_control u reg value).1 =
      if u.results u.calls.length ≤ 0 then u.results u.calls.length else 0 := by
  unfold write_control libusb_control_transfer
  dsimp only
  split_ifs <;> rfl

/-- The call `write_control` makes: a vendor request to the device
(`bmRequestType` 0x40) with the register as `bRequest`, the value as `wValue`,
index 0, one data byte and no deadline. -/
theorem write_control_calls (u : Usb) (reg value : Nat) :
    (write_control u reg value).2.calls = u.calls ++
      [{ bmRequestType := 0x40, bRequest := reg % 256, wValue := value % 65536,
         wIndex := 0, wLength := 1, timeout := 0 }] := by
  unfold write_control libusb_control_transfer
  dsimp only
  split_ifs <;> rfl

/-- The call `read_control` makes: a vendor request from the device
(`bmRequestType` 0xC0) with the register as `bRequest`, value 0, index 0, `len`
data bytes and deadline 100. -/
theorem read_control_calls (u : Usb) (reg len : Nat) :
    (read_control u reg len).2.calls = u.calls ++
      [{ bmRequestType := 0xC0, bRequest := reg % 256, wValue := 0,
         wIndex := 0, wLength := len % 65536, timeout := 100 }] := by
  unfold read_control libusb_control_transfer
  dsimp only
  split_ifs <;> rfl

/-- The setter `dds140_update_samplerate` returns what its second write returns. -/
theorem dds140_update_samplerate_ret (u : Usb) (devc : dev_context) :
    (dds140_update_samplerate u devc).1 =
      (write_control (write_control u 0x24 0x18).2 0x94
        (samplerate_to_reg devc.samplerate)).1 := rfl

/-- The setter `dds140_update_vdiv` writes 0x22 and then 0x23 and returns the smaller of
the two results, whatever the two writes return. -/
theorem dds140_update_vdiv_ret (u : Usb) (devc : dev_context) (v0 v1 : Nat)
    (h0 : voltage_to_reg 0 (to_uint8 (devc.voltage 0)) = some v0)
    (h1 : voltage_to_reg 1 (to_uint8 (devc.voltage 1)) = some v1) :
    (dds140_update_vdiv u devc).map Prod.fst =
      some (min (write_control u 0x22 v0).1
                (write_control (write_control u 0x22 v0).2 0x23 v1).1) := by
  unfold dds140_update_vdiv
  rw [h0, h1]
  show some (MIN (write_control u 0x22 v0).1
    (write_control (write_control u 0x22 v0).2 0x23 v1).1) = _
  congr 1
  unfold MIN
  split_ifs with h
  · exact (min_eq_left (le_of_lt h)).symm
  · exact (min_eq_right (not_lt.mp h)).symm

/-- C6: when the blocking transfer returns 0, `write_control` and
`read_control` log an error and return 0, which is `SR_OK`. -/
theorem write_control_zero_result (reg value len : Nat) :
    (write_control { results := fun _ => 0, calls := [], errors := 0 } reg value).1 = SR_OK ∧
    (write_control { results := fun _ => 0, calls := [], errors := 0 } reg value).2.errors = 1 ∧
    (read_control { results := fun _ => 0, calls := [], errors := 0 } reg len).1 = SR_OK ∧
    (read_control { results := fun _ => 0, calls := [], errors := 0 } reg len).2.errors = 1 :=
  ⟨rfl, rfl, rfl, rfl⟩

/-- C7: when the write of 0x24 fails with -1 and the write of 0x94 succeeds,
`dds140_update_samplerate` returns 0 (`SR_OK`), not the smaller result -1;
`dds140_update_vdiv` on the same results returns -1. -/
theorem dds140_update_samplerate_drops_first_result (devc : dev_context) :
    (write_control { results := fun n => if n = 0 then -1 else 1, calls := [], errors := 0 }
      0x24 0x18).1 = -1 ∧
    (dds140_update_samplerate
      { results := fun n => if n = 0 then -1 else 1, calls := [], errors := 0 } devc).1 = SR_OK ∧
    (dds140_update_vdiv
      { results := fun n => if n = 0 then -1 else 1, calls := [], errors := 0 }
      { samplerate := 39000, voltage := fun _ => 2 }).map Prod.fst = some (-1) :=
  ⟨rfl, rfl, rfl⟩

/-! ## Asynchronous requests: theorems -/

/-- C8: the setup packets of the asynchronous control transfers carry
`bmRequestType` 0x00 (start command) and 0x80 (status poll), a standard and not
a vendor request, while the blocking `write_control` and `read_control` send
0x40 and 0xC0; the other setup fields are as specified. -/
theorem async_setup_request_type (u : Usb) (reg value len : Nat) :
    (dds140_get_channeldata Outcome.ok World.idle 0 (Callback.user 0) 512).2.submitted.map
        libusb_transfer.setup =
      [some { bmRequestType := 0x00, bRequest := 0x33, wValue := 0, wIndex := 0,
              wLength := 1 }] ∧
    (start_wait_for_fifo Outcome.ok World.idle 0).submitted.map libusb_transfer.setup =
      [some { bmRequestType := 0x80, bRequest := 0x50, wValue := 0, wIndex := 0,
              wLength := 1 }] ∧
    (write_control u reg value).2.calls = u.calls ++
      [{ bmRequestType := 0x40, bRequest := reg % 256, wValue := value % 65536,
         wIndex := 0, wLength := 1, timeout := 0 }] ∧
    (read_control u reg len).2.calls = u.calls ++
      [{ bmRequestType := 0xC0, bRequest := reg % 256, wValue := 0,
         wIndex := 0, wLength := len % 65536, timeout := 100 }] :=
  ⟨rfl, rfl, write_control_calls u reg value, read_control_calls u reg len⟩

/-- C9: when `libusb_submit_transfer` fails with -1, `dds140_get_channeldata`
and `start_wait_for_fifo` return with one buffer and one transfer record
allocated and none released, nothing in flight; `start_data_transfer`
releases both. -/
theorem async_submit_failure_leaks (amount : Nat) :
    (dds140_get_channeldata { malloc_ok := true, alloc_transfer_ok := true, submit_ret := -1 }
      World.idle 0 (Callback.user 0) amount).2 =
      { World.idle with s_cb := some (Callback.user 0), s_data_amount := amount % 2 ^ 32,
                        submitted := [start_command 0], in_flight := [],
                        bufs_allocated := 1, bufs_freed := 0,
                        transfers_allocated := 1, transfers_freed := 0 } ∧
    start_wait_for_fifo { malloc_ok := true, alloc_transfer_ok := true, submit_ret := -1 }
      World.idle 0 =
      { World.idle with submitted := [status_poll 0], in_flight := [],
                        bufs_allocated := 1, bufs_freed := 0,
                        transfers_allocated := 1, transfers_freed := 0 } ∧
    start_data_transfer { malloc_ok := true, alloc_transfer_ok := true, submit_ret := -1 }
      { World.idle with s_cb := some (Callback.user 0), s_data_amount := 512 } 0 =
      some { World.idle with s_cb := some (Callback.user 0), s_data_amount := 512,
                             submitted := [bulk_read 0 512 (some (Callback.user 0))],
                             in_flight := [],
                             bufs_allocated := 1, bufs_freed := 1,
                             transfers_allocated := 1, transfers_freed := 1,
                             errors := 1 } :=
  ⟨rfl, rfl, rfl⟩

/-- C4, as stated, fails: an acquisition is started, its start command
completes, and the first status poll completes with byte 0x00 while `malloc`
returns null.  No new poll is issued: the requests stay the start command and
the one poll, and nothing is in flight. -/
theorem wait_for_fifo_cb_no_repoll_without_memory :
    ((run_completions
        (dds140_get_channeldata Outcome.ok World.idle 0 (Callback.user 0) 512).2 [0]).bind
      fun w => transfer_completes
        { malloc_ok := false, alloc_transfer_ok := true, submit_ret := 0 } w 0 0x00) =
      some { s_cb := some (Callback.user 0), s_data_amount := 512,
             submitted := [start_command 0, status_poll 0], in_flight := [],
             bufs_allocated := 2, bufs_freed := 2,
             transfers_allocated := 2, transfers_freed := 2,
             handler_calls := [], errors := 0 } :=
  rfl

/-- The bulk transfer of `start_data_transfer` is not a status poll. -/
theorem bulk_request_ne_status_poll (sdi amount sdi1 : Nat) (cb : Option Callback) :
    bulk_request sdi amount cb ≠ status_poll sdi1 := by
  intro h
  have h1 := congrArg libusb_transfer.type h
  simp [bulk_request, status_poll] at h1

/-- C4, amended: when the buffer and the transfer record are allocated,
`wait_for_fifo_cb` launches the bulk read exactly when the status byte is 0x21:
the bulk transfer is handed to `libusb_submit_transfer` exactly then, and is in
flight exactly then when that call does not fail.  At every other byte exactly
one 1-byte read of register 0x50 is handed over (and is in flight when the call
does not fail) and no bulk read.  When the call fails nothing new is in flight.
The recorded amount and handler are unchanged throughout. -/
theorem wait_for_fifo_cb_dispatch (o : Outcome) (w : World) (trans : libusb_transfer)
    (b : Nat) (hm : o.malloc_ok = true) (ha : o.alloc_transfer_ok = true) :
    ∃ w1, wait_for_fifo_cb o w trans b = some w1 ∧
      w1.s_cb = w.s_cb ∧ w1.s_data_amount = w.s_data_amount ∧
      (w1.submitted = w.submitted ++ [bulk_request trans.user_data w.s_data_amount w.s_cb]
        ↔ b = 0x21) ∧
      (b ≠ 0x21 → w1.submitted = w.submitted ++ [status_poll trans.user_data]) ∧
      (0 ≤ o.submit_ret →
        (w1.in_flight = w.in_flight ++ [bulk_request trans.user_data w.s_data_amount w.s_cb]
          ↔ b = 0x21) ∧
        (b ≠ 0x21 → w1.in_flight = w.in_flight ++ [status_poll trans.user_data])) ∧
      (o.submit_ret < 0 → w1.in_flight = w.in_flight) := by
  by_cases hb : b = 0x21
  · subst hb
    by_cases hs : o.submit_ret < 0
    · refine ⟨{ w with
          submitted := w.submitted ++ [bulk_request trans.user_data w.s_data_amount w.s_cb],
          bufs_allocated := w.bufs_allocated + 1, bufs_freed := w.bufs_freed + 1 + 1,
          transfers_allocated := w.transfers_allocated + 1,
          transfers_freed := w.transfers_freed + 1 + 1, errors := w.errors + 1 },
        ?_, rfl, rfl, ⟨fun _ => rfl, fun _ => rfl⟩, fun h => absurd rfl h,
        fun h => absurd hs (not_lt.mpr h), fun _ => rfl⟩
      simp only [wait_for_fifo_cb, start_data_transfer, libusb_submit_transfer, hm, ha, hs,
        if_true, Bool.not_true, libusb_fill_bulk_transfer, DDS140_EP_IN, bulk_request]
      rfl
    · refine ⟨{ w with
          submitted := w.submitted ++ [bulk_request trans.user_data w.s_data_amount w.s_cb],
          in_flight := w.in_flight ++ [bulk_request trans.user_data w.s_data_amount w.s_cb],
          bufs_allocated := w.bufs_allocated + 1, bufs_freed := w.bufs_freed + 1,
          transfers_allocated := w.transfers_allocated + 1,
          transfers_freed := w.transfers_freed + 1 },
        ?_, rfl, rfl, ⟨fun _ => rfl, fun _ => rfl⟩, fun h => absurd rfl h,
        fun _ => ⟨⟨fun _ => rfl, fun _ => rfl⟩, fun h => absurd rfl h⟩,
        fun h => absurd h hs⟩
      simp only [wait_for_fifo_cb, start_data_transfer, libusb_submit_transfer, hm, ha, hs,
        if_true, if_false, Bool.not_true, libusb_fill_bulk_transfer, DDS140_EP_IN,
        bulk_request]
      rfl
  · have hb1 : ¬ (0x21 = b) := fun h => hb h.symm
    have hne : ∀ l : List libusb_transfer,
        l ++ [status_poll trans.user_data] =
          l ++ [bulk_request trans.user_data w.s_data_amount w.s_cb] → b = 0x21 := by
      intro l h
      have h1 := List.append_cancel_left h
      simp only [List.cons.injEq, and_true] at h1
      exact absurd h1.symm (bulk_request_ne_status_poll _ _ _ _)
    by_cases hs : o.submit_ret < 0
    · refine ⟨{ w with
          submitted := w.submitted ++ [status_poll trans.user_data],
          bufs_allocated := w.bufs_allocated + 1, bufs_freed := w.bufs_freed + 1,
          transfers_allocated := w.transfers_allocated + 1,
          transfers_freed := w.transfers_freed + 1 },
        ?_, rfl, rfl, ⟨hne _, fun h => absurd h hb⟩, fun _ => rfl,
        fun h => absurd hs (not_lt.mpr h), fun _ => rfl⟩
      simp only [wait_for_fifo_cb, start_wait_for_fifo, read_control_async,
        libusb_submit_transfer, hm, ha, hb1, hs, if_true, if_false, Bool.not_true]
      rfl
    · refine ⟨{ w with
          submitted := w.submitted ++ [status_poll trans.user_data],
          in_flight := w.in_flight ++ [status_poll trans.user_data],
          bufs_allocated := w.bufs_allocated + 1, bufs_freed := w.bufs_freed + 1,
          transfers_allocated := w.transfers_allocated + 1,
          transfers_freed := w.transfers_freed + 1 },
        ?_, rfl, rfl, ⟨hne _, fun h => absurd h hb⟩, fun _ => rfl,
        fun _ => ⟨⟨hne _, fun h => absurd h hb⟩, fun _ => rfl⟩,
        fun h => absurd h hs⟩
      simp only [wait_for_fifo_cb, start_wait_for_fifo, read_control_async,
        libusb_submit_transfer, hm, ha, hb1, hs, if_false, Bool.not_true]
      rfl

theorem wait_for_fifo_cb_dispatch_witness :
    Outcome.ok.malloc_ok = true ∧ Outcome.ok.alloc_transfer_ok = true ∧
    (∃ w1, wait_for_fifo_cb Outcome.ok { World.polling 4 0 512 with in_flight := [] }
        (status_poll 4) 0x21 = some w1 ∧
      w1.s_cb = some (Callback.user 0) ∧ w1.s_data_amount = 512 ∧
      (w1.submitted = [start_command 4, status_poll 4] ++
          [bulk_request 4 512 (some (Callback.user 0))] ↔ 0x21 = 0x21) ∧
      (0x21 ≠ 0x21 → w1.submitted = [start_command 4, status_poll 4] ++ [status_poll 4]) ∧
      ((0 : Int) ≤ 0 →
        (w1.in_flight = [] ++ [bulk_request 4 512 (some (Callback.user 0))] ↔ 0x21 = 0x21) ∧
        (0x21 ≠ 0x21 → w1.in_flight = [] ++ [status_poll 4])) ∧
      ((0 : Int) < 0 → w1.in_flight = [])) ∧
    (∃ w1, wait_for_fifo_cb Outcome.ok { World.polling 4 0 512 with in_flight := [] }
        (status_poll 4) 0x00 = some w1 ∧
      w1.s_cb = some (Callback.user 0) ∧ w1.s_data_amount = 512 ∧
      (w1.submitted = [start_command 4, status_poll 4] ++
          [bulk_request 4 512 (some (Callback.user 0))] ↔ 0x00 = 0x21) ∧
      (0x00 ≠ 0x21 → w1.submitted = [start_command 4, status_poll 4] ++ [status_poll 4]) ∧
      ((0 : Int) ≤ 0 →
        (w1.in_flight = [] ++ [bulk_request 4 512 (some (Callback.user 0))] ↔ 0x00 = 0x21) ∧
        (0x00 ≠ 0x21 → w1.in_flight = [] ++ [status_poll 4])) ∧
      ((0 : Int) < 0 → w1.in_flight = [])) :=
  ⟨rfl, rfl,
    wait_for_fifo_cb_dispatch Outcome.ok { World.polling 4 0 512 with in_flight := [] }
      (status_poll 4) 0x21 rfl rfl,
    wait_for_fifo_cb_dispatch Outcome.ok { World.polling 4 0 512 with in_flight := [] }
      (status_poll 4) 0x00 rfl rfl⟩

/-! ## One acquisition, from the call to the handler -/

/-- Completions run one list after the other. -/
theorem run_completions_append (w : World) (l1 l2 : List Nat) :
    run_completions w (l1 ++ l2) =
      (run_completions w l1).bind fun w1 => run_completions w1 l2 := by
  induction l1 generalizing w with
  | nil => rfl
  | cons d rest ih =>
    simp only [List.cons_append, run_completions]
    cases transfer_completes Outcome.ok w 0 d with
    | none => rfl
    | some w1 => exact ih w1

/-- Below 2^31 the conversion to `int` keeps the value. -/
theorem uint32_to_int_small (n : Nat) (h : n < 2 ^ 31) : uint32_to_int n = (n : Int) := by
  have h1 : n % 2 ^ 32 = n := Nat.mod_eq_of_lt (by omega)
  unfold uint32_to_int
  rw [h1, if_pos h]

/-- Below 2^31 the bulk transfer that the code fills is the bulk read of the
recorded amount. -/
theorem bulk_request_small (sdi amount : Nat) (cb : Option Callback) (h : amount < 2 ^ 31) :
    bulk_request sdi amount cb = bulk_read sdi amount cb := by
  unfold bulk_request bulk_read
  rw [uint32_to_int_small amount h]

/-- The call itself: the globals are recorded and the start command is issued. -/
theorem dds140_get_channeldata_ok (w : World) (sdi : Nat) (cb : Callback) (amount : Nat) :
    (dds140_get_channeldata Outcome.ok w sdi cb amount).1 = SR_OK ∧
    (dds140_get_channeldata Outcome.ok w sdi cb amount).2 =
      { w with s_cb := some cb, s_data_amount := amount % 2 ^ 32,
               submitted := w.submitted ++ [start_command sdi],
               in_flight := w.in_flight ++ [start_command sdi],
               bufs_allocated := w.bufs_allocated + 1,
               transfers_allocated := w.transfers_allocated + 1 } :=
  ⟨rfl, rfl⟩

/-- The start command completes: its buffer and record are released and the
poll is issued. -/
theorem start_command_completes (w : World) (sdi x : Nat)
    (hfl : w.in_flight = [start_command sdi]) :
    transfer_completes Outcome.ok w 0 x =
      some { w with submitted := w.submitted ++ [status_poll sdi],
                    in_flight := [status_poll sdi],
                    bufs_allocated := w.bufs_allocated + 1,
                    bufs_freed := w.bufs_freed + 1,
                    transfers_allocated := w.transfers_allocated + 1,
                    transfers_freed := w.transfers_freed + 1 } := by
  simp only [transfer_completes, hfl, List.getElem?_cons_zero, start_command, invoke_callback,
    write_0x33_cb, start_wait_for_fifo, read_control_async, libusb_submit_transfer,
    Outcome.ok, List.eraseIdx_cons_zero]
  rfl

/-- A poll completes with a byte other than 0x21: its buffer and record are
released and the poll is issued again. -/
theorem status_poll_not_ready (w : World) (sdi b : Nat)
    (hfl : w.in_flight = [status_poll sdi]) (hb : b ≠ 0x21) :
    transfer_completes Outcome.ok w 0 b =
      some { w with submitted := w.submitted ++ [status_poll sdi],
                    in_flight := [status_poll sdi],
                    bufs_allocated := w.bufs_allocated + 1,
                    bufs_freed := w.bufs_freed + 1,
                    transfers_allocated := w.transfers_allocated + 1,
                    transfers_freed := w.transfers_freed + 1 } := by
  have hb1 : ¬ (0x21 = b) := fun h => hb h.symm
  simp only [transfer_completes, hfl, List.getElem?_cons_zero, status_poll, invoke_callback,
    wait_for_fifo_cb, start_wait_for_fifo, read_control_async, libusb_submit_transfer,
    Outcome.ok, List.eraseIdx_cons_zero, hb1, if_false]
  rfl

/-- A poll completes with byte 0x21: its buffer and record are released and the
bulk transfer is issued. -/
theorem status_poll_ready (w : World) (sdi : Nat)
    (hfl : w.in_flight = [status_poll sdi]) :
    transfer_completes Outcome.ok w 0 0x21 =
      some { w with submitted := w.submitted ++ [bulk_request sdi w.s_data_amount w.s_cb],
                    in_flight := [bulk_request sdi w.s_data_amount w.s_cb],
                    bufs_allocated := w.bufs_allocated + 1,
                    bufs_freed := w.bufs_freed + 1,
                    transfers_allocated := w.transfers_allocated + 1,
                    transfers_freed := w.transfers_freed + 1 } := by
  simp only [transfer_completes, hfl, List.getElem?_cons_zero, status_poll, invoke_callback,
    wait_for_fifo_cb, start_data_transfer, libusb_submit_transfer,
    Outcome.ok, List.eraseIdx_cons_zero, if_true]
  rfl

/-- Polls complete one after the other with bytes other than 0x21: each
completion releases one buffer and record and issues one more poll. -/
theorem status_polls_not_ready (sdi : Nat) (bs : List Nat) :
    ∀ w : World, w.in_flight = [status_poll sdi] → (∀ b ∈ bs, b ≠ 0x21) →
    run_completions w bs =
      some { w with submitted := w.submitted ++ List.replicate bs.length (status_poll sdi),
                    bufs_allocated := w.bufs_allocated + bs.length,
                    bufs_freed := w.bufs_freed + bs.length,
                    transfers_allocated := w.transfers_allocated + bs.length,
                    transfers_freed := w.transfers_freed + bs.length } := by
  induction bs with
  | nil =>
    intro w _ _
    simp [run_completions]
  | cons b rest ih =>
    intro w hfl hbs
    have hstep := status_poll_not_ready w sdi b hfl (hbs b (List.mem_cons_self b rest))
    simp only [run_completions, hstep, Option.some_bind]
    rw [ih _ rfl (fun c hc => hbs c (List.mem_cons_of_mem b hc))]
    simp only [List.length_cons, List.replicate_succ, List.append_assoc, List.singleton_append,
      Option.some.injEq, World.mk.injEq, true_and, and_true]
    refine ⟨hfl.symm, ?_, ?_, ?_, ?_⟩ <;> omega

/-- The bulk read completes: the handler is invoked with it, once; the
transfer and its buffer now belong to the handler. -/
theorem bulk_read_completes (w : World) (sdi amount fn y : Nat)
    (hfl : w.in_flight = [bulk_read sdi amount (some (Callback.user fn))]) :
    transfer_completes Outcome.ok w 0 y =
      some { w with in_flight := [],
                    handler_calls := w.handler_calls ++
                      [(fn, bulk_read sdi amount (some (Callback.user fn)))] } := by
  simp only [transfer_completes, hfl, List.getElem?_cons_zero, bulk_read, invoke_callback,
    List.eraseIdx_cons_zero]

/-- C5, as stated, fails: an acquisition of 2147483648 (2^31) bytes is
started, its start command completes and the first status poll returns 0x21,
every allocation and submission succeeding.  The bulk transfer issued has a
buffer of 2147483648 bytes and the length -2147483648, not the amount. -/
theorem bulk_length_negative_from_2_pow_31 :
    run_completions
        (dds140_get_channeldata Outcome.ok World.idle 0 (Callback.user 0) 2147483648).2
        [0, 0x21] =
      some { s_cb := some (Callback.user 0), s_data_amount := 2147483648,
             submitted := [start_command 0, status_poll 0,
               { endpoint := 0x82, type := TransferType.bulk, timeout := 4000,
                 length := -2147483648, buffer := 2147483648,
                 callback := some (Callback.user 0), user_data := 0, setup := none }],
             in_flight :=
               [{ endpoint := 0x82, type := TransferType.bulk, timeout := 4000,
                  length := -2147483648, buffer := 2147483648,
                  callback := some (Callback.user 0), user_data := 0, setup := none }],
             bufs_allocated := 3, bufs_freed := 2,
             transfers_allocated := 3, transfers_freed := 2,
             handler_calls := [], errors := 0 } := by
  decide

/-- C5, amended: after `dds140_get_channeldata(sdi, cb, amount)` with
`amount` below 2^31 on a session with nothing in flight, when every allocation
and submission succeeds and the status polls return the bytes `bs`, none of
them 0x21, and then 0x21, the requests issued are the write of register 0x33
with value 0, then `bs.length + 1` 1-byte reads of register 0x50, then one bulk
read on endpoint 0x82 of length `amount` into a buffer of `amount` bytes with
deadline 4000 and callback `cb`; every buffer and record but those of the bulk
read are released; when the bulk read completes, `cb` is invoked once, with
that transfer, and nothing more is issued. -/
theorem acquisition_requests (w : World) (sdi fn amount x y : Nat) (bs : List Nat)
    (hidle : w.in_flight = []) (hamount : amount < 2 ^ 31)
    (hbs : ∀ b ∈ bs, b ≠ 0x21) :
    ∃ w1,
      run_completions (dds140_get_channeldata Outcome.ok w sdi (Callback.user fn) amount).2
        (x :: (bs ++ [0x21])) = some w1 ∧
      w1 = { s_cb := some (Callback.user fn), s_data_amount := amount,
             submitted := w.submitted ++
               (start_command sdi :: List.replicate (bs.length + 1) (status_poll sdi) ++
                 [bulk_read sdi amount (some (Callback.user fn))]),
             in_flight := [bulk_read sdi amount (some (Callback.user fn))],
             bufs_allocated := w.bufs_allocated + (bs.length + 3),
             bufs_freed := w.bufs_freed + (bs.length + 2),
             transfers_allocated := w.transfers_allocated + (bs.length + 3),
             transfers_freed := w.transfers_freed + (bs.length + 2),
             handler_calls := w.handler_calls, errors := w.errors } ∧
      transfer_completes Outcome.ok w1 0 y =
        some { w1 with in_flight := [],
                       handler_calls := w.handler_calls ++
                         [(fn, bulk_read sdi amount (some (Callback.user fn)))] } := by
  have hmod : amount % 2 ^ 32 = amount := Nat.mod_eq_of_lt (by omega)
  have h0 := (dds140_get_channeldata_ok w sdi (Callback.user fn) amount).2
  rw [hidle, List.nil_append, hmod] at h0
  rw [h0]
  refine ⟨_, ?_, rfl, bulk_read_completes _ sdi amount fn y rfl⟩
  rw [run_completions, start_command_completes _ sdi x, Option.some_bind,
    run_completions_append, status_polls_not_ready sdi bs _ _ hbs, Option.some_bind,
    run_completions, status_poll_ready _ sdi, Option.some_bind, run_completions]
  · simp only [bulk_request_small sdi amount (some (Callback.user fn)) hamount,
      Option.some.injEq, World.mk.injEq, List.replicate_succ, List.append_assoc,
      List.cons_append, List.singleton_append, List.nil_append, true_and, and_true]
    refine ⟨?_, ?_, ?_, ?_⟩ <;> omega
  all_goals rfl

theorem acquisition_requests_witness :
    World.idle.in_flight = [] ∧ 512 < 2 ^ 31 ∧ (∀ b ∈ [0x00, 0x20], b ≠ 0x21) ∧
    ∃ w1,
      run_completions
        (dds140_get_channeldata Outcome.ok World.idle 3 (Callback.user 9) 512).2
        (0 :: ([0x00, 0x20] ++ [0x21])) = some w1 ∧
      w1 = { s_cb := some (Callback.user 9), s_data_amount := 512,
             submitted := [start_command 3, status_poll 3, status_poll 3, status_poll 3,
               bulk_read 3 512 (some (Callback.user 9))],
             in_flight := [bulk_read 3 512 (some (Callback.user 9))],
             bufs_allocated := 5, bufs_freed := 4,
             transfers_allocated := 5, transfers_freed := 4,
             handler_calls := [], errors := 0 } ∧
      transfer_completes Outcome.ok w1 0 0 =
        some { w1 with in_flight := [],
                       handler_calls := [(9, bulk_read 3 512 (some (Callback.user 9)))] } :=
  ⟨rfl, by norm_num, by decide,
    acquisition_requests World.idle 3 9 512 0 0 [0x00, 0x20] rfl (by norm_num) (by decide)⟩

/-! ## Transfers in flight per session -/

/-- Erasing the entry at an index lowers a count by one exactly when the entry
is counted. -/
theorem countP_eraseIdx_add (p : libusb_transfer → Bool) :
    ∀ (l : List libusb_transfer) (i : Nat) (t : libusb_transfer), l[i]? = some t →
      (l.eraseIdx i).countP p + (if p t then 1 else 0) = l.countP p := by
  intro l
  induction l with
  | nil => intro i t h; simp at h
  | cons a rest ih =>
    intro i t h
    cases i with
    | zero =>
      simp only [List.getElem?_cons_zero, Option.some.injEq] at h
      subst h
      simp only [List.eraseIdx_cons_zero, List.countP_cons]
    | succ j =>
      simp only [List.getElem?_cons_succ] at h
      have := ih j t h
      simp only [List.eraseIdx_cons_succ, List.countP_cons]
      omega

/-- A completion takes one transfer out of flight and puts at most one in,
for the same session. -/
theorem transfer_completes_in_flight (w w1 : World) (i d : Nat)
    (h : transfer_completes Outcome.ok w i d = some w1) :
    ∃ t, w.in_flight[i]? = some t ∧
      (w1.in_flight = w.in_flight.eraseIdx i ∨
        ∃ t1, t1.user_data = t.user_data ∧ w1.in_flight = w.in_flight.eraseIdx i ++ [t1]) := by
  unfold transfer_completes at h
  cases hget : w.in_flight[i]? with
  | none => simp [hget] at h
  | some t =>
    refine ⟨t, rfl, ?_⟩
    simp only [hget] at h
    cases hcb : t.callback with
    | none =>
      simp only [hcb, Option.some.injEq] at h
      subst h
      exact Or.inl rfl
    | some cb =>
      simp only [hcb] at h
      cases cb with
      | write_0x33_cb =>
        simp only [invoke_callback, Option.some.injEq] at h
        subst h
        exact Or.inr ⟨status_poll t.user_data, rfl, rfl⟩
      | wait_for_fifo_cb =>
        simp only [invoke_callback, wait_for_fifo_cb] at h
        split_ifs at h
        · simp [start_data_transfer, Outcome.ok, libusb_submit_transfer] at h
          subst h
          exact Or.inr ⟨bulk_request t.user_data w.s_data_amount w.s_cb, rfl, rfl⟩
        · simp only [Option.some.injEq] at h
          subst h
          exact Or.inr ⟨status_poll t.user_data, rfl, rfl⟩
      | user fn =>
        simp only [invoke_callback, Option.some.injEq] at h
        subst h
        exact Or.inl rfl

/-- A completion does not raise the number of transfers a session has in
flight. -/
theorem outstanding_completion (w w1 : World) (i d sdi : Nat)
    (h : transfer_completes Outcome.ok w i d = some w1) :
    outstanding w1 sdi ≤ outstanding w sdi := by
  obtain ⟨t, hget, hfl⟩ := transfer_completes_in_flight w w1 i d h
  have hcount := countP_eraseIdx_add (fun t => t.user_data == sdi) w.in_flight i t hget
  unfold outstanding
  rcases hfl with hfl | ⟨t1, ht1, hfl⟩
  · rw [hfl]
    omega
  · rw [hfl, List.countP_append, List.countP_singleton]
    simp only [ht1] at hcount ⊢
    omega

/-- A call puts one more transfer of its session in flight and none of any
other session. -/
theorem outstanding_call (w : World) (sdi0 sdi : Nat) (cb : Callback) (amount : Nat) :
    outstanding (dds140_get_channeldata Outcome.ok w sdi0 cb amount).2 sdi =
      outstanding w sdi + (if sdi0 = sdi then 1 else 0) := by
  unfold outstanding
  rw [(dds140_get_channeldata_ok w sdi0 cb amount).2, List.countP_append,
    List.countP_singleton]
  simp [start_command]

/-- C10, as stated, fails: two calls of `dds140_get_channeldata` on session 0,
one right after the other, leave two start commands of that session in
flight. -/
theorem two_calls_two_outstanding :
    ¬ ∀ (w : World) (sdi : Nat), Reachable w → outstanding w sdi ≤ 1 := by
  intro h
  have h2 := h _ 0
    (Reachable.call 0 (Callback.user 0) 512
      (Reachable.call 0 (Callback.user 0) 512 Reachable.idle))
  revert h2
  decide

/-- C10, amended: in every state reachable from idle when
`dds140_get_channeldata` is called on a session only while that session has no
transfer in flight, and transfers in flight complete, every allocation and
submission succeeding, each session has at most one transfer in flight. -/
theorem one_outstanding_per_session (w : World) (sdi : Nat) (h : ReachableWaiting w) :
    outstanding w sdi ≤ 1 := by
  induction h with
  | idle => simp [outstanding, World.idle]
  | call sdi0 cb amount _ hwait ih =>
    rw [outstanding_call]
    by_cases hs : sdi0 = sdi
    · subst hs
      simp [hwait]
    · simp [hs, ih]
  | completion i d _ hstep ih =>
    exact le_trans (outstanding_completion _ _ i d sdi hstep) ih

/-- The state in which the first status poll of an acquisition of 512 bytes on
session 4 is in flight. -/
theorem polling_reachable :
    ReachableWaiting
      { s_cb := some (Callback.user 0), s_data_amount := 512,
        submitted := [start_command 4, status_poll 4], in_flight := [status_poll 4],
        bufs_allocated := 2, bufs_freed := 1,
        transfers_allocated := 2, transfers_freed := 1,
        handler_calls := [], errors := 0 } :=
  ReachableWaiting.completion 0 0
    (ReachableWaiting.call 4 (Callback.user 0) 512 ReachableWaiting.idle rfl) rfl

theorem one_outstanding_per_session_witness :
    ReachableWaiting
      { s_cb := some (Callback.user 0), s_data_amount := 512,
        submitted := [start_command 4, status_poll 4], in_flight := [status_poll 4],
        bufs_allocated := 2, bufs_freed := 1,
        transfers_allocated := 2, transfers_freed := 1,
        handler_calls := [], errors := 0 } ∧
    outstanding
      { s_cb := some (Callback.user 0), s_data_amount := 512,
        submitted := [start_command 4, status_poll 4], in_flight := [status_poll 4],
        bufs_allocated := 2, bufs_freed := 1,
        transfers_allocated := 2, transfers_freed := 1,
        handler_calls := [], errors := 0 } 4 ≤ 1 :=
  ⟨polling_reachable, one_outstanding_per_session _ 4 polling_reachable⟩

end DDS140
